import Mathlib

/-!
Shallow embedding of the ASCII arena duel simulation (game.py) and proofs
about its movement, hit-detection, shield, buff, cooldown and charge logic.
Positions are integers; timestamps are rationals (the source uses a real
clock reading in seconds); Python float literals like 0.15 appear here as
the exact rationals they denote in decimal.
-/

namespace AsciiArena

/-- FRAME_TIME = 0.05 -/
def FRAME_TIME : ℚ := 1/20

/-- MOVE_HOLD_TIMEOUT = 0.35 -/
def MOVE_HOLD_TIMEOUT : ℚ := 7/20

/-- SHOT_COOLDOWN = 0.1 -/
def SHOT_COOLDOWN : ℚ := 1/10

/-- CHARGE_RELEASE_WINDOW = 0.08 -/
def CHARGE_RELEASE_WINDOW : ℚ := 2/25

/-- MAX_CHARGE_TIME = 0.75 -/
def MAX_CHARGE_TIME : ℚ := 3/4

/-- DASH_COOLDOWN = 2.2 -/
def DASH_COOLDOWN : ℚ := 11/5

/-- DASH_DISTANCE = 7 -/
def DASH_DISTANCE : ℤ := 7

/-- DASH_TRAIL_TTL = 0.18 -/
def DASH_TRAIL_TTL : ℚ := 9/50

/-- PROJECTILE_SPEED = 2 -/
def PROJECTILE_SPEED : ℕ := 2

/-- SHOTGUN_DURATION = 10.0 -/
def SHOTGUN_DURATION : ℚ := 10

/-- DASH_BOOST_DURATION = 10.0 -/
def DASH_BOOST_DURATION : ℚ := 10

/-- DASH_BOOST_COOLDOWN = 0.6 -/
def DASH_BOOST_COOLDOWN : ℚ := 3/5

/-- JUMP_DURATION = 0.45 -/
def JUMP_DURATION : ℚ := 9/20

def LEVEL_NORMAL : ℕ := 0

def LEVEL_JUMP : ℕ := 1

/-- Mirrors the Projectile dataclass of game.py. -/
structure Projectile where
  x : ℤ
  y : ℤ
  dx : ℤ
  dy : ℤ
  level : ℕ
  owner : String
  size : ℤ := 1
deriving Repr, DecidableEq

/-- Mirrors the DashTrail dataclass of game.py. -/
structure DashTrail where
  x : ℤ
  y : ℤ
  glyph : String
  expires_at : ℚ
deriving Repr, DecidableEq

/-- Mirrors the Player dataclass of game.py (rendering-only fields kept too). -/
structure Player where
  pid : String
  name : String
  x : ℤ
  y : ℤ
  level : ℕ := LEVEL_NORMAL
  facing : ℤ × ℤ := (1, 0)
  alive : Bool := true
  shield : Bool := false
  shotgun_until : ℚ := 0
  dash_boost_until : ℚ := 0
  last_shot_at : ℚ := -999
  last_dash_at : ℚ := -999
  jump_until : ℚ := 0
  move_dx : ℤ := 0
  move_dy : ℤ := 0
  move_until : ℚ := 0
  charging : Bool := false
  charge_started_at : ℚ := 0
  last_charge_input_at : ℚ := 0
deriving Repr, DecidableEq

/-- Player.dash_cooldown: reduced cooldown while the dash boost is active. -/
def Player.dash_cooldown (p : Player) (now : ℚ) : ℚ :=
  if now < p.dash_boost_until then DASH_BOOST_COOLDOWN else DASH_COOLDOWN

/-- Player.can_shoot: now - last_shot_at >= SHOT_COOLDOWN. -/
def Player.can_shoot (p : Player) (now : ℚ) : Bool :=
  decide (now - p.last_shot_at ≥ SHOT_COOLDOWN)

/-- Player.can_dash: now - last_dash_at >= dash_cooldown(now). -/
def Player.can_dash (p : Player) (now : ℚ) : Bool :=
  decide (now - p.last_dash_at ≥ p.dash_cooldown now)

/-- AsciiArenaGame.clamp_in_arena. -/
def clamp_in_arena (w h x y : ℤ) : ℤ × ℤ :=
  (max 0 (min (w - 1) x), max 0 (min (h - 1) y))

/-- AsciiArenaGame.apply_powerup, as a pure update of the player. -/
def apply_powerup (player : Player) (kind : String) (now : ℚ) : Player :=
  if kind = "shotgun" then
    { player with shotgun_until := max player.shotgun_until (now + SHOTGUN_DURATION) }
  else if kind = "dash_boost" then
    { player with dash_boost_until := max player.dash_boost_until (now + DASH_BOOST_DURATION) }
  else if kind = "shield" then
    { player with shield := true }
  else player

/-- The KEYMAP table of game.py, as a lookup function (pids other than p1
take the p2 row, matching that only p1 and p2 exist). -/
def keymap (pid action : String) : String :=
  if pid = "p1" then
    if action = "up" then "w"
    else if action = "down" then "s"
    else if action = "left" then "a"
    else if action = "right" then "d"
    else if action = "jump" then "e"
    else if action = "dash" then "r"
    else if action = "shoot" then "q"
    else ""
  else
    if action = "up" then "i"
    else if action = "down" then "k"
    else if action = "left" then "j"
    else if action = "right" then "l"
    else if action = "jump" then "o"
    else if action = "dash" then "p"
    else if action = "shoot" then "u"
    else ""

/-- The dx, dy assignment chain at the top of handle_key_for_player. -/
def dir_delta (m : String → String) (key : String) : ℤ × ℤ :=
  if key = m "up" then (0, -1)
  else if key = m "down" then (0, 1)
  else if key = m "left" then (-1, 0)
  else if key = m "right" then (1, 0)
  else (0, 0)

/-- AsciiArenaGame.start_or_update_charge. -/
def start_or_update_charge (player : Player) (now : ℚ) : Player :=
  if ¬player.charging then
    if ¬player.can_shoot now then player
    else { player with charging := true, charge_started_at := now, last_charge_input_at := now }
  else { player with last_charge_input_at := now }

/-- AsciiArenaGame.fire_projectiles: returns the updated player and the
projectiles appended, in order. -/
def fire_projectiles (w h : ℤ) (player : Player) (now : ℚ) (size : ℤ) :
    Player × List Projectile :=
  let player := { player with last_shot_at := now }
  let base := if player.facing ≠ (0, 0) then player.facing else ((1 : ℤ), (0 : ℤ))
  let shots : List ((ℤ × ℤ) × (ℤ × ℤ)) :=
    if now < player.shotgun_until then
      let px : ℤ := -base.2
      let py : ℤ := base.1
      [(base, (0, 0)), (base, (px, py)), (base, (-px, -py))]
    else [(base, (0, 0))]
  (player, shots.map (fun s =>
    let c := clamp_in_arena w h (player.x + s.2.1) (player.y + s.2.2)
    { x := c.1, y := c.2, dx := s.1.1, dy := s.1.2,
      level := player.level, owner := player.pid, size := size }))

/-- AsciiArenaGame.charge_tier (0.15 = 3/20, 0.4 = 2/5). -/
def charge_tier (player : Player) (now : ℚ) : ℤ :=
  let charge_time := max 0 (min MAX_CHARGE_TIME (now - player.charge_started_at))
  if charge_time < 3/20 then 1 else if charge_time < 2/5 then 2 else 3

/-- AsciiArenaGame.maybe_release_charge: returns the updated player and the
projectiles fired, if any (0.15 = 3/20, 0.4 = 2/5). -/
def maybe_release_charge (w h : ℤ) (player : Player) (now : ℚ) :
    Player × List Projectile :=
  if ¬player.charging then (player, [])
  else if now - player.last_charge_input_at < CHARGE_RELEASE_WINDOW ∧
      now - player.charge_started_at < MAX_CHARGE_TIME then (player, [])
  else
    let charge_time := max 0 (min MAX_CHARGE_TIME (now - player.charge_started_at))
    let size : ℤ := if charge_time < 3/20 then 1 else if charge_time < 2/5 then 2 else 3
    let r := fire_projectiles w h player now size
    ({ r.1 with charging := false }, r.2)

/-- AsciiArenaGame.apply_continuous_movement. -/
def apply_continuous_movement (w h : ℤ) (player : Player) (now : ℚ) : Player :=
  if player.charging then player
  else if now ≤ player.move_until ∧ (player.move_dx ≠ 0 ∨ player.move_dy ≠ 0) then
    let c := clamp_in_arena w h (player.x + player.move_dx) (player.y + player.move_dy)
    { player with x := c.1, y := c.2 }
  else player

/-- AsciiArenaGame.dash: returns the updated player and the dash trails
emitted this call. -/
def dash (w h : ℤ) (player : Player) (now : ℚ) : Player × List DashTrail :=
  if player.charging ∨ ¬player.can_dash now then (player, [])
  else
    let player := { player with last_dash_at := now }
    let d : ℤ × ℤ :=
      if player.facing.1 = 0 ∧ player.facing.2 = 0 then
        ((if player.pid = "p1" then 1 else -1), player.facing.2)
      else player.facing
    let trail_glyph := if d.1 ≠ 0 then "-" else "|"
    let trails := (List.range' 1 (DASH_DISTANCE.toNat - 1)).filterMap (fun i =>
      let tx := player.x - d.1 * (i : ℤ)
      let ty := player.y - d.2 * (i : ℤ)
      if 0 ≤ tx ∧ tx < w ∧ 0 ≤ ty ∧ ty < h then
        some { x := tx, y := ty, glyph := trail_glyph, expires_at := now + DASH_TRAIL_TTL }
      else none)
    let c := clamp_in_arena w h (player.x + d.1 * DASH_DISTANCE) (player.y + d.2 * DASH_DISTANCE)
    ({ player with x := c.1, y := c.2 }, trails)

/-- The directional block of handle_key_for_player: a nonzero delta sets
facing to it and, unless charging, also the held-movement vector with its
expiry. -/
def apply_direction (player : Player) (d : ℤ × ℤ) (now : ℚ) : Player :=
  if d.1 ≠ 0 ∨ d.2 ≠ 0 then
    let p := { player with facing := d }
    if ¬p.charging then
      { p with move_dx := d.1, move_dy := d.2, move_until := now + MOVE_HOLD_TIMEOUT }
    else p
  else player

/-- AsciiArenaGame.handle_key_for_player: returns the updated player and any
dash trails emitted. -/
def handle_key_for_player (w h : ℤ) (player : Player) (key : String) (now : ℚ) :
    Player × List DashTrail :=
  let m := keymap player.pid
  let player1 := apply_direction player (dir_delta m key) now
  if key = m "jump" then
    ({ player1 with level := LEVEL_JUMP, jump_until := now + JUMP_DURATION }, [])
  else if key = m "dash" then dash w h player1 now
  else if key = m "shoot" then (start_or_update_charge player1 now, [])
  else (player1, [])

/-- AsciiArenaGame.projectile_hits_player. -/
def projectile_hits_player (proj : Projectile) (player : Player) : Bool :=
  if player.level ≠ proj.level then false
  else decide (|player.x - proj.x| + |player.y - proj.y| ≤ max 0 (proj.size - 1))

/-- The inner defender loop of step_projectiles for one projectile: walks the
players in dict order, skips the owner and the dead, and resolves the first
hit (shield consumed, or kill recording the owner as scorer). Returns the
updated players, whether a hit happened, and the scorer set by this loop. -/
def resolve_hit (proj : Projectile) :
    List (String × Player) → List (String × Player) × Bool × Option String
  | [] => ([], false, none)
  | (pid, player) :: rest =>
    if pid = proj.owner ∨ ¬player.alive then
      let r := resolve_hit proj rest
      ((pid, player) :: r.1, r.2.1, r.2.2)
    else if projectile_hits_player proj player then
      if player.shield then
        ((pid, { player with shield := false }) :: rest, true, none)
      else
        ((pid, { player with alive := false }) :: rest, true, some proj.owner)
    else
      let r := resolve_hit proj rest
      ((pid, player) :: r.1, r.2.1, r.2.2)

/-- One sub-step of step_projectiles: each projectile advances one cell,
leaves if out of bounds, otherwise tests the players; survivors are kept. -/
def substep_projectiles (w h : ℤ) :
    List Projectile → List (String × Player) → Option String →
    List Projectile × List (String × Player) × Option String
  | [], players, scorer => ([], players, scorer)
  | proj :: rest, players, scorer =>
    let p := { proj with x := proj.x + proj.dx, y := proj.y + proj.dy }
    if 0 ≤ p.x ∧ p.x < w ∧ 0 ≤ p.y ∧ p.y < h then
      let r := resolve_hit p players
      let scorer2 := match r.2.2 with
        | some s => some s
        | none => scorer
      let rec2 := substep_projectiles w h rest r.1 scorer2
      (if r.2.1 then rec2.1 else p :: rec2.1, rec2.2.1, rec2.2.2)
    else
      substep_projectiles w h rest players scorer

/-- The sub-step loop of step_projectiles: runs sub-steps, returning early
once a scorer is recorded. -/
def step_projectiles_go (w h : ℤ) :
    ℕ → List Projectile → List (String × Player) → Option String →
    List Projectile × List (String × Player) × Option String
  | 0, projs, players, scorer => (projs, players, scorer)
  | n + 1, projs, players, scorer =>
    let r := substep_projectiles w h projs players scorer
    match r.2.2 with
    | some s => (r.1, r.2.1, some s)
    | none => step_projectiles_go w h n r.1 r.2.1 none

/-- AsciiArenaGame.step_projectiles: PROJECTILE_SPEED sub-steps with early
return on the first scorer. -/
def step_projectiles (w h : ℤ) (projs : List Projectile)
    (players : List (String × Player)) :
    List Projectile × List (String × Player) × Option String :=
  step_projectiles_go w h PROJECTILE_SPEED projs players none

/-- The entity creation of AsciiArenaGame.reset_round, in dict insertion
order (p1 first). -/
def reset_players (w h : ℤ) (bot_mode : Bool) : List (String × Player) :=
  [("p1", { pid := "p1", name := "P1", x := 4, y := h / 2, facing := (1, 0) }),
   ("p2", { pid := "p2", name := if bot_mode then "BOT" else "P2",
            x := w - 5, y := h / 2, facing := (-1, 0) })]

/-- The four axis-aligned unit facing vectors. -/
def axisFacings : List (ℤ × ℤ) := [(1, 0), (-1, 0), (0, 1), (0, -1)]

/-- Claim C1: a projectile whose level differs from the defending entity
never registers a hit, for all positions, and the hit-resolution loop leaves
such a defender untouched with no hit flag and no scorer. -/
theorem cross_level_projectile_never_hits (proj : Projectile) (player : Player)
    (hlv : player.level ≠ proj.level) :
    projectile_hits_player proj player = false ∧
    ∀ pid : String, resolve_hit proj [(pid, player)] = ([(pid, player)], false, none) := by
  have hmiss : projectile_hits_player proj player = false := by
    simp [projectile_hits_player, hlv]
  refine ⟨hmiss, fun pid => ?_⟩
  by_cases hskip : pid = proj.owner ∨ ¬player.alive
  · simp only [resolve_hit]
    rw [if_pos hskip]
  · simp only [resolve_hit]
    rw [if_neg hskip]
    simp [hmiss]

/-- Witness for C1 at a concrete cross-level configuration. -/
theorem cross_level_projectile_never_hits_witness :
    projectile_hits_player
      { x := 5, y := 5, dx := 1, dy := 0, level := LEVEL_NORMAL, owner := "p1" }
      { pid := "p2", name := "P2", x := 5, y := 5, level := LEVEL_JUMP } = false ∧
    ∀ pid : String, resolve_hit
      { x := 5, y := 5, dx := 1, dy := 0, level := LEVEL_NORMAL, owner := "p1" }
      [(pid, { pid := "p2", name := "P2", x := 5, y := 5, level := LEVEL_JUMP })] =
      ([(pid, { pid := "p2", name := "P2", x := 5, y := 5, level := LEVEL_JUMP })], false, none) :=
  cross_level_projectile_never_hits
    { x := 5, y := 5, dx := 1, dy := 0, level := LEVEL_NORMAL, owner := "p1" }
    { pid := "p2", name := "P2", x := 5, y := 5, level := LEVEL_JUMP }
    (by decide)

/-- A concrete player used by witnesses: p1 at (4, 5) with default fields. -/
def samplePlayer : Player := { pid := "p1", name := "P1", x := 4, y := 5 }

theorem clampBounds (w h x y : ℤ) (hw : 1 ≤ w) (hh : 1 ≤ h) :
    0 ≤ (clamp_in_arena w h x y).1 ∧ (clamp_in_arena w h x y).1 < w ∧
    0 ≤ (clamp_in_arena w h x y).2 ∧ (clamp_in_arena w h x y).2 < h := by
  unfold clamp_in_arena
  dsimp only
  omega

/-- Claim C2: with a positive arena, the clamp always lands in
[0, w) x [0, h), and both continuous movement and dash keep an in-bounds
entity in bounds, for every movement state and facing. -/
theorem entity_positions_stay_in_arena (w h x y : ℤ) (p : Player) (now : ℚ)
    (hw : 1 ≤ w) (hh : 1 ≤ h)
    (hpx : 0 ≤ p.x) (hpx2 : p.x < w) (hpy : 0 ≤ p.y) (hpy2 : p.y < h) :
    (0 ≤ (clamp_in_arena w h x y).1 ∧ (clamp_in_arena w h x y).1 < w ∧
     0 ≤ (clamp_in_arena w h x y).2 ∧ (clamp_in_arena w h x y).2 < h) ∧
    (0 ≤ (apply_continuous_movement w h p now).x ∧
     (apply_continuous_movement w h p now).x < w ∧
     0 ≤ (apply_continuous_movement w h p now).y ∧
     (apply_continuous_movement w h p now).y < h) ∧
    (0 ≤ (dash w h p now).1.x ∧ (dash w h p now).1.x < w ∧
     0 ≤ (dash w h p now).1.y ∧ (dash w h p now).1.y < h) := by
  refine ⟨clampBounds w h x y hw hh, ?_, ?_⟩
  · unfold apply_continuous_movement
    split_ifs with h1 h2
    · exact ⟨hpx, hpx2, hpy, hpy2⟩
    · exact clampBounds w h _ _ hw hh
    · exact ⟨hpx, hpx2, hpy, hpy2⟩
  · unfold dash
    split_ifs with h1
    · exact ⟨hpx, hpx2, hpy, hpy2⟩
    · exact clampBounds w h _ _ hw hh

/-- Witness for C2 in the small arena with an out-of-range clamp query. -/
theorem entity_positions_stay_in_arena_witness :
    (0 ≤ (clamp_in_arena 30 10 100 (-3)).1 ∧ (clamp_in_arena 30 10 100 (-3)).1 < 30 ∧
     0 ≤ (clamp_in_arena 30 10 100 (-3)).2 ∧ (clamp_in_arena 30 10 100 (-3)).2 < 10) ∧
    (0 ≤ (apply_continuous_movement 30 10 samplePlayer 0).x ∧
     (apply_continuous_movement 30 10 samplePlayer 0).x < 30 ∧
     0 ≤ (apply_continuous_movement 30 10 samplePlayer 0).y ∧
     (apply_continuous_movement 30 10 samplePlayer 0).y < 10) ∧
    (0 ≤ (dash 30 10 samplePlayer 0).1.x ∧ (dash 30 10 samplePlayer 0).1.x < 30 ∧
     0 ≤ (dash 30 10 samplePlayer 0).1.y ∧ (dash 30 10 samplePlayer 0).1.y < 10) :=
  entity_positions_stay_in_arena 30 10 100 (-3) samplePlayer 0
    (by decide) (by decide) (by decide) (by decide) (by decide) (by decide)

/-- Claim C9: applying the shotgun or dash-boost powerup sets the matching
expiry to max(current expiry, now + duration), hence the expiry never
decreases under any pickup, re-pickup while active included. -/
theorem buff_expiry_never_decreases (player : Player) (now : ℚ) :
    (apply_powerup player "shotgun" now).shotgun_until =
      max player.shotgun_until (now + SHOTGUN_DURATION) ∧
    player.shotgun_until ≤ (apply_powerup player "shotgun" now).shotgun_until ∧
    (apply_powerup player "dash_boost" now).dash_boost_until =
      max player.dash_boost_until (now + DASH_BOOST_DURATION) ∧
    player.dash_boost_until ≤ (apply_powerup player "dash_boost" now).dash_boost_until := by
  refine ⟨?_, ?_, ?_, ?_⟩ <;> simp [apply_powerup]

/-- Claim C8: the charge tier is determined by the charge duration clamped
to [0, MAX_CHARGE_TIME]: below 0.15 s it is 1, in [0.15, 0.4) it is 2, at or
above 0.4 s it is 3, and any duration at or past the cap gives 3. -/
theorem charge_tier_thresholds (p : Player) (now : ℚ) :
    (max 0 (min MAX_CHARGE_TIME (now - p.charge_started_at)) < 3/20 →
      charge_tier p now = 1) ∧
    (3/20 ≤ max 0 (min MAX_CHARGE_TIME (now - p.charge_started_at)) →
      max 0 (min MAX_CHARGE_TIME (now - p.charge_started_at)) < 2/5 →
      charge_tier p now = 2) ∧
    (2/5 ≤ max 0 (min MAX_CHARGE_TIME (now - p.charge_started_at)) →
      charge_tier p now = 3) ∧
    (MAX_CHARGE_TIME ≤ now - p.charge_started_at → charge_tier p now = 3) := by
  refine ⟨?_, ?_, ?_, ?_⟩
  · intro h1
    simp only [charge_tier]
    rw [if_pos h1]
  · intro h1 h2
    simp only [charge_tier]
    rw [if_neg (by linarith), if_pos h2]
  · intro h1
    simp only [charge_tier]
    rw [if_neg (by linarith), if_neg (by linarith)]
  · intro h1
    have hm : min MAX_CHARGE_TIME (now - p.charge_started_at) = MAX_CHARGE_TIME :=
      min_eq_left h1
    simp only [charge_tier, hm]
    have hmx : max (0 : ℚ) MAX_CHARGE_TIME = MAX_CHARGE_TIME := by
      unfold MAX_CHARGE_TIME
      norm_num
    rw [hmx]
    rw [if_neg (by unfold MAX_CHARGE_TIME; norm_num),
        if_neg (by unfold MAX_CHARGE_TIME; norm_num)]

/-- Witness for C8: tier 1 at 0.05 s, tier 2 exactly at 0.15 s, tier 3
exactly at 0.4 s, tier 3 past the cap, all for a charge started at 0. -/
theorem charge_tier_thresholds_witness :
    charge_tier samplePlayer (1/20) = 1 ∧ charge_tier samplePlayer (3/20) = 2 ∧
    charge_tier samplePlayer (2/5) = 3 ∧ charge_tier samplePlayer 1 = 3 :=
  ⟨(charge_tier_thresholds samplePlayer (1/20)).1
     (by norm_num [samplePlayer, MAX_CHARGE_TIME, min_def, max_def]),
   (charge_tier_thresholds samplePlayer (3/20)).2.1
     (by norm_num [samplePlayer, MAX_CHARGE_TIME, min_def, max_def])
     (by norm_num [samplePlayer, MAX_CHARGE_TIME, min_def, max_def]),
   (charge_tier_thresholds samplePlayer (2/5)).2.2.1
     (by norm_num [samplePlayer, MAX_CHARGE_TIME, min_def, max_def]),
   (charge_tier_thresholds samplePlayer 1).2.2.2
     (by norm_num [samplePlayer, MAX_CHARGE_TIME])⟩

/-- A player whose dash boost runs until time 1, last dash at time 0. -/
def boostPlayer : Player :=
  { pid := "p1", name := "P1", x := 4, y := 5, last_dash_at := 0, dash_boost_until := 1 }

/-- Claim C7 counterexample: with last_dash_at = 0 and dash_boost_until = 1,
can_dash is true at t = 0.7 (boosted cooldown 0.6) yet false at the later
t = 1.5 (boost expired, base cooldown 2.2): can_dash does not stay true. -/
theorem can_dash_not_monotonic :
    boostPlayer.can_dash (7/10) = true ∧ boostPlayer.can_dash (3/2) = false ∧
    ((7/10 : ℚ) < 3/2) := by
  refine ⟨?_, ?_, by norm_num⟩
  · simp only [Player.can_dash, Player.dash_cooldown, boostPlayer, decide_eq_true_eq]
    rw [if_pos (by norm_num)]
    norm_num [DASH_BOOST_COOLDOWN]
  · simp only [Player.can_dash, Player.dash_cooldown, boostPlayer,
      decide_eq_false_iff_not]
    rw [if_neg (by norm_num)]
    norm_num [DASH_COOLDOWN]

/-- Claim C7 amended: can_shoot is monotone in time and is true exactly from
last_shot_at + SHOT_COOLDOWN on; can_dash is monotone only while the
dash-boost status does not change — with both query times inside the boost
window, or both at or past it — and in general it can flip back to false
when the boost expires. -/
theorem cooldown_query_monotonicity (p : Player) (t1 t2 : ℚ) (h12 : t1 ≤ t2) :
    (p.can_shoot t1 = true → p.can_shoot t2 = true) ∧
    (p.can_shoot t2 = true ↔ p.last_shot_at + SHOT_COOLDOWN ≤ t2) ∧
    (t2 < p.dash_boost_until → p.can_dash t1 = true → p.can_dash t2 = true) ∧
    (p.dash_boost_until ≤ t1 → p.can_dash t1 = true → p.can_dash t2 = true) := by
  simp only [Player.can_shoot, Player.can_dash, Player.dash_cooldown,
    decide_eq_true_eq, ge_iff_le]
  refine ⟨fun h => by linarith, ⟨fun h => by linarith, fun h => by linarith⟩, ?_, ?_⟩
  · intro hb h1
    rw [if_pos (lt_of_le_of_lt h12 hb)] at h1
    rw [if_pos hb]
    linarith
  · intro hb h1
    rw [if_neg (not_lt.mpr hb)] at h1
    rw [if_neg (not_lt.mpr (le_trans hb h12))]
    linarith

/-- Witness for the amended C7 at the boosted player and times 1 and 2. -/
theorem cooldown_query_monotonicity_witness :
    (boostPlayer.can_shoot 1 = true → boostPlayer.can_shoot 2 = true) ∧
    (boostPlayer.can_shoot 2 = true ↔ boostPlayer.last_shot_at + SHOT_COOLDOWN ≤ 2) ∧
    ((2 : ℚ) < boostPlayer.dash_boost_until →
      boostPlayer.can_dash 1 = true → boostPlayer.can_dash 2 = true) ∧
    (boostPlayer.dash_boost_until ≤ 1 →
      boostPlayer.can_dash 1 = true → boostPlayer.can_dash 2 = true) :=
  cooldown_query_monotonicity boostPlayer 1 2 (by norm_num)

theorem dash_pid (w h : ℤ) (p : Player) (now : ℚ) :
    ((dash w h p now).1).pid = p.pid := by
  unfold dash
  split_ifs <;> rfl

theorem dash_facing (w h : ℤ) (p : Player) (now : ℚ) :
    ((dash w h p now).1).facing = p.facing := by
  unfold dash
  split_ifs <;> rfl

theorem charge_pid (p : Player) (now : ℚ) :
    (start_or_update_charge p now).pid = p.pid := by
  unfold start_or_update_charge
  split_ifs <;> rfl

theorem charge_facing (p : Player) (now : ℚ) :
    (start_or_update_charge p now).facing = p.facing := by
  unfold start_or_update_charge
  split_ifs <;> rfl

theorem apply_direction_pid (p : Player) (d : ℤ × ℤ) (now : ℚ) :
    (apply_direction p d now).pid = p.pid := by
  simp only [apply_direction]
  split_ifs <;> rfl

theorem apply_direction_facing_nonzero (p : Player) (d : ℤ × ℤ) (now : ℚ)
    (hd : d.1 ≠ 0 ∨ d.2 ≠ 0) : (apply_direction p d now).facing = d := by
  simp only [apply_direction]
  rw [if_pos hd]
  split_ifs <;> rfl

theorem handle_key_pid (w h : ℤ) (p : Player) (key : String) (now : ℚ) :
    ((handle_key_for_player w h p key now).1).pid = p.pid := by
  simp only [handle_key_for_player]
  split_ifs <;> simp [dash_pid, charge_pid, apply_direction_pid]

theorem dir_delta_p1_w : dir_delta (keymap "p1") "w" = (0, -1) := by decide

theorem handle_key_up_facing (w h : ℤ) (q : Player) (t : ℚ) (hq : q.pid = "p1") :
    ((handle_key_for_player w h q "w" t).1).facing = (0, -1) := by
  simp only [handle_key_for_player, hq]
  rw [if_neg (by decide), if_neg (by decide), if_neg (by decide), dir_delta_p1_w]
  exact apply_direction_facing_nonzero q (0, -1) t (by decide)

/-- Claim C4 counterexample: for p1, pressing right then up in the same
frame leaves facing (0, -1) — the last token wins — not the diagonal
(1, -1) that the claim predicts. -/
theorem diagonal_facing_refuted :
    ((handle_key_for_player 30 10
        ((handle_key_for_player 30 10 samplePlayer "d" 0).1) "w" 0).1).facing
      = (0, -1) ∧
    ((handle_key_for_player 30 10
        ((handle_key_for_player 30 10 samplePlayer "d" 0).1) "w" 0).1).facing
      ≠ (1, -1) := by
  have h := handle_key_up_facing 30 10
      ((handle_key_for_player 30 10 samplePlayer "d" 0).1) 0
      (by rw [handle_key_pid]; rfl)
  exact ⟨h, by rw [h]; decide⟩

/-- Claim C4 amended: each directional token overwrites facing with its own
single-axis unit vector, so after x-axis and y-axis tokens in one frame the
facing is that of the last token — right then up yields (0, -1) for every
p1 state, never a diagonal vector. -/
theorem last_directional_token_wins (w h : ℤ) (p : Player) (t1 t2 : ℚ)
    (hpid : p.pid = "p1") :
    ((handle_key_for_player w h
        ((handle_key_for_player w h p "d" t1).1) "w" t2).1).facing = (0, -1) :=
  handle_key_up_facing w h ((handle_key_for_player w h p "d" t1).1) t2
    (by rw [handle_key_pid, hpid])

/-- Witness for the amended C4 at a concrete p1 state and frame time 0. -/
theorem last_directional_token_wins_witness :
    ((handle_key_for_player 30 10
        ((handle_key_for_player 30 10 boostPlayer "d" 0).1) "w" 0).1).facing = (0, -1) :=
  last_directional_token_wins 30 10 boostPlayer 0 0 rfl

theorem dir_delta_cases (m : String → String) (key : String) :
    dir_delta m key = (0, 0) ∨ dir_delta m key ∈ axisFacings := by
  unfold dir_delta
  split_ifs <;> simp [axisFacings]

theorem apply_direction_facing_mem (p : Player) (d : ℤ × ℤ) (now : ℚ)
    (hfac : p.facing ∈ axisFacings) (hd : d = (0, 0) ∨ d ∈ axisFacings) :
    (apply_direction p d now).facing ∈ axisFacings := by
  simp only [apply_direction]
  split_ifs with h1 h2
  · rcases hd with hd | hd
    · rw [hd] at h1
      simp at h1
    · exact hd
  · rcases hd with hd | hd
    · rw [hd] at h1
      simp at h1
    · exact hd
  · exact hfac

theorem facing_mem_after_key (w h : ℤ) (p : Player) (key : String) (now : ℚ)
    (hfac : p.facing ∈ axisFacings) :
    (handle_key_for_player w h p key now).1.facing ∈ axisFacings := by
  simp only [handle_key_for_player]
  have h1 := apply_direction_facing_mem p (dir_delta (keymap p.pid) key) now hfac
      (dir_delta_cases (keymap p.pid) key)
  split_ifs
  · exact h1
  · rw [dash_facing]
    exact h1
  · rw [charge_facing]
    exact h1
  · exact h1

theorem fire_directions (w h : ℤ) (p : Player) (now : ℚ) (sz : ℤ)
    (hnz : p.facing ≠ (0, 0)) :
    ∀ q ∈ (fire_projectiles w h p now sz).2, (q.dx, q.dy) = p.facing := by
  intro q hq
  simp only [fire_projectiles] at hq
  rw [if_pos hnz] at hq
  split_ifs at hq <;> simp only [List.map, List.mem_cons,
    List.not_mem_nil, or_false] at hq
  · rcases hq with hq | hq | hq <;> subst hq <;> rfl
  · subst hq
    rfl

theorem dash_destination (w h : ℤ) (p : Player) (now : ℚ)
    (hch : p.charging = false) (hcd : p.can_dash now = true) (hnz : p.facing ≠ (0, 0)) :
    (dash w h p now).1.x =
      (clamp_in_arena w h (p.x + p.facing.1 * DASH_DISTANCE)
        (p.y + p.facing.2 * DASH_DISTANCE)).1 ∧
    (dash w h p now).1.y =
      (clamp_in_arena w h (p.x + p.facing.1 * DASH_DISTANCE)
        (p.y + p.facing.2 * DASH_DISTANCE)).2 := by
  have hgate : ¬(p.charging = true ∨ ¬p.can_dash now = true) := by
    rw [hch, hcd]
    simp
  have hzz : ¬(p.facing.1 = 0 ∧ p.facing.2 = 0) := by
    intro hand
    exact hnz (Prod.ext hand.1 hand.2)
  simp only [dash]
  rw [if_neg hgate, if_neg hzz]
  exact ⟨rfl, rfl⟩

/-- Claim C10: facing is always one of the four axis-aligned unit vectors:
it starts as one at round reset, every key handling keeps it one, (0, 0) is
not among them, and consequently fired projectiles always travel along the
stored facing and the dash destination is determined by the stored facing —
the zero-facing fallback branches never engage. -/
theorem facing_axis_invariant (w h : ℤ) (bm : Bool) (p : Player) (key : String)
    (now : ℚ) (sz : ℤ) (hfac : p.facing ∈ axisFacings) :
    ((handle_key_for_player w h p key now).1.facing ∈ axisFacings) ∧
    ((reset_players w h bm).map (fun e => e.2.facing) = [(1, 0), (-1, 0)]) ∧
    (∀ f ∈ axisFacings, f ≠ ((0 : ℤ), (0 : ℤ))) ∧
    (∀ q ∈ (fire_projectiles w h p now sz).2, (q.dx, q.dy) = p.facing) ∧
    (p.charging = false → p.can_dash now = true →
      (dash w h p now).1.x = (clamp_in_arena w h (p.x + p.facing.1 * DASH_DISTANCE)
          (p.y + p.facing.2 * DASH_DISTANCE)).1 ∧
      (dash w h p now).1.y = (clamp_in_arena w h (p.x + p.facing.1 * DASH_DISTANCE)
          (p.y + p.facing.2 * DASH_DISTANCE)).2) := by
  have hzero : ∀ f ∈ axisFacings, f ≠ ((0 : ℤ), (0 : ℤ)) := by decide
  have hnz : p.facing ≠ (0, 0) := hzero p.facing hfac
  exact ⟨facing_mem_after_key w h p key now hfac, rfl, hzero,
    fire_directions w h p now sz hnz,
    fun hch hcd => dash_destination w h p now hch hcd hnz⟩

/-- Witness for C10 at a concrete p1 state, the up key, and size tier 1. -/
theorem facing_axis_invariant_witness :
    ((handle_key_for_player 30 10 samplePlayer "w" 0).1.facing ∈ axisFacings) ∧
    ((reset_players 30 10 false).map (fun e => e.2.facing) = [(1, 0), (-1, 0)]) ∧
    (∀ f ∈ axisFacings, f ≠ ((0 : ℤ), (0 : ℤ))) ∧
    (∀ q ∈ (fire_projectiles 30 10 samplePlayer 0 1).2,
      (q.dx, q.dy) = samplePlayer.facing) ∧
    (samplePlayer.charging = false → samplePlayer.can_dash 0 = true →
      (dash 30 10 samplePlayer 0).1.x =
        (clamp_in_arena 30 10 (samplePlayer.x + samplePlayer.facing.1 * DASH_DISTANCE)
          (samplePlayer.y + samplePlayer.facing.2 * DASH_DISTANCE)).1 ∧
      (dash 30 10 samplePlayer 0).1.y =
        (clamp_in_arena 30 10 (samplePlayer.x + samplePlayer.facing.1 * DASH_DISTANCE)
          (samplePlayer.y + samplePlayer.facing.2 * DASH_DISTANCE)).2) :=
  facing_axis_invariant 30 10 false samplePlayer "w" 0 1 (by decide)

/-- A p1 at (10, 5) with the shotgun buff active until time 100. -/
def shotgunPlayer : Player :=
  { pid := "p1", name := "P1", x := 10, y := 5, shotgun_until := 100 }

/-- Claim C5 amended: with the shotgun buff active at fire time and a
nonzero facing, three projectiles spawn, all with the base facing as their
direction; one spawns at the entity cell and the two side shots at the
perpendicular-offset cells (clamped to the arena), each tagged with the
current level of the entity. -/
theorem shotgun_offset_spread (w h : ℤ) (p : Player) (now : ℚ) (sz : ℤ)
    (hsg : now < p.shotgun_until) (hf : p.facing ≠ (0, 0)) :
    (fire_projectiles w h p now sz).2 =
      [{ x := (clamp_in_arena w h p.x p.y).1, y := (clamp_in_arena w h p.x p.y).2,
         dx := p.facing.1, dy := p.facing.2, level := p.level, owner := p.pid, size := sz },
       { x := (clamp_in_arena w h (p.x + -p.facing.2) (p.y + p.facing.1)).1,
         y := (clamp_in_arena w h (p.x + -p.facing.2) (p.y + p.facing.1)).2,
         dx := p.facing.1, dy := p.facing.2, level := p.level, owner := p.pid, size := sz },
       { x := (clamp_in_arena w h (p.x + p.facing.2) (p.y + -p.facing.1)).1,
         y := (clamp_in_arena w h (p.x + p.facing.2) (p.y + -p.facing.1)).2,
         dx := p.facing.1, dy := p.facing.2, level := p.level, owner := p.pid, size := sz }] := by
  simp only [fire_projectiles]
  rw [if_pos hf, if_pos hsg]
  simp [neg_neg, add_zero]

/-- Witness for the amended C5: the concrete shotgun volley at (10, 5). -/
theorem shotgun_offset_spread_witness :
    (fire_projectiles 30 10 shotgunPlayer 0 1).2 =
      [{ x := (clamp_in_arena 30 10 shotgunPlayer.x shotgunPlayer.y).1,
         y := (clamp_in_arena 30 10 shotgunPlayer.x shotgunPlayer.y).2,
         dx := shotgunPlayer.facing.1, dy := shotgunPlayer.facing.2,
         level := shotgunPlayer.level, owner := shotgunPlayer.pid, size := 1 },
       { x := (clamp_in_arena 30 10 (shotgunPlayer.x + -shotgunPlayer.facing.2)
           (shotgunPlayer.y + shotgunPlayer.facing.1)).1,
         y := (clamp_in_arena 30 10 (shotgunPlayer.x + -shotgunPlayer.facing.2)
           (shotgunPlayer.y + shotgunPlayer.facing.1)).2,
         dx := shotgunPlayer.facing.1, dy := shotgunPlayer.facing.2,
         level := shotgunPlayer.level, owner := shotgunPlayer.pid, size := 1 },
       { x := (clamp_in_arena 30 10 (shotgunPlayer.x + shotgunPlayer.facing.2)
           (shotgunPlayer.y + -shotgunPlayer.facing.1)).1,
         y := (clamp_in_arena 30 10 (shotgunPlayer.x + shotgunPlayer.facing.2)
           (shotgunPlayer.y + -shotgunPlayer.facing.1)).2,
         dx := shotgunPlayer.facing.1, dy := shotgunPlayer.facing.2,
         level := shotgunPlayer.level, owner := shotgunPlayer.pid, size := 1 }] :=
  shotgun_offset_spread 30 10 shotgunPlayer 0 1
    (by norm_num [shotgunPlayer]) (by decide)

/-- Claim C5 counterexample: at (10, 5) facing (1, 0) with shotgun active,
all three projectiles travel in the single direction (1, 0) and they spawn
at (10, 5), (10, 6) and (10, 4) — not one projectile per rotated direction
at the entity cell, as the claim states. -/
theorem shotgun_directions_refuted :
    ((fire_projectiles 30 10 shotgunPlayer 0 1).2.map (fun q => (q.dx, q.dy)) =
      [(1, 0), (1, 0), (1, 0)]) ∧
    ((fire_projectiles 30 10 shotgunPlayer 0 1).2.map (fun q => (q.x, q.y)) =
      [(10, 5), (10, 6), (10, 4)]) ∧
    ¬((fire_projectiles 30 10 shotgunPlayer 0 1).2.map (fun q => (q.dx, q.dy)) =
      [(1, 0), (0, 1), (0, -1)]) ∧
    ¬(∀ q ∈ (fire_projectiles 30 10 shotgunPlayer 0 1).2, (q.x, q.y) = (10, 5)) := by
  decide

/-- An off-cooldown p1 at (10, 5) facing (1, 0). -/
def dashPlayer : Player := { pid := "p1", name := "P1", x := 10, y := 5 }

theorem dashPlayer_gate : ¬(dashPlayer.charging = true ∨ ¬dashPlayer.can_dash 0 = true) := by
  have hcd : dashPlayer.can_dash 0 = true := by
    simp only [Player.can_dash, Player.dash_cooldown, dashPlayer, decide_eq_true_eq]
    norm_num [DASH_COOLDOWN]
  rw [hcd]
  simp [dashPlayer]

theorem range_one_six : List.range' 1 (DASH_DISTANCE.toNat - 1) = [1, 2, 3, 4, 5, 6] := rfl

/-- Claim C6 (code divergence): an off-cooldown p1 at (10, 5) facing (1, 0)
dashing at time 0 in the 30 x 10 arena ends at (17, 5), yet the emitted
trail cells are (9, 5) down to (4, 5) — behind the start, opposite the dash
direction — so no trail cell lies strictly between start and destination;
each trail does carry expiry now + DASH_TRAIL_TTL. -/
theorem dash_trail_emitted_behind_start :
    ((dash 30 10 dashPlayer 0).1.x, (dash 30 10 dashPlayer 0).1.y) = (17, 5) ∧
    ((dash 30 10 dashPlayer 0).2.map (fun t => (t.x, t.y)) =
      [(9, 5), (8, 5), (7, 5), (6, 5), (5, 5), (4, 5)]) ∧
    (∀ t ∈ (dash 30 10 dashPlayer 0).2, ¬(10 < t.x ∧ t.x < 17)) ∧
    (∀ t ∈ (dash 30 10 dashPlayer 0).2, t.expires_at = 0 + DASH_TRAIL_TTL) := by
  have htr : (dash 30 10 dashPlayer 0).2 =
      [{ x := 9, y := 5, glyph := "-", expires_at := 0 + DASH_TRAIL_TTL },
       { x := 8, y := 5, glyph := "-", expires_at := 0 + DASH_TRAIL_TTL },
       { x := 7, y := 5, glyph := "-", expires_at := 0 + DASH_TRAIL_TTL },
       { x := 6, y := 5, glyph := "-", expires_at := 0 + DASH_TRAIL_TTL },
       { x := 5, y := 5, glyph := "-", expires_at := 0 + DASH_TRAIL_TTL },
       { x := 4, y := 5, glyph := "-", expires_at := 0 + DASH_TRAIL_TTL }] := by
    simp only [dash]
    rw [if_neg dashPlayer_gate]
    simp only [dashPlayer, range_one_six]
    norm_num [List.filterMap]
  have hx : (dash 30 10 dashPlayer 0).1.x = 17 ∧ (dash 30 10 dashPlayer 0).1.y = 5 := by
    simp only [dash]
    rw [if_neg dashPlayer_gate]
    simp only [dashPlayer, clamp_in_arena, DASH_DISTANCE]
    norm_num
  refine ⟨by rw [hx.1, hx.2], by rw [htr]; rfl, ?_, ?_⟩
  · rw [htr]
    decide
  · rw [htr]
    intro t ht
    simp only [List.mem_cons, List.not_mem_nil, or_false] at ht
    rcases ht with h | h | h | h | h | h <;> rw [h]

theorem step_eval_single (w h : ℤ) (projs : List Projectile)
    (players players2 : List (String × Player)) (sc : Option String)
    (hsub : substep_projectiles w h projs players none = ([], players2, sc)) :
    step_projectiles w h projs players = ([], players2, sc) := by
  have h2 : step_projectiles w h projs players =
      (match (substep_projectiles w h projs players none).2.2 with
       | some s => ((substep_projectiles w h projs players none).1,
                    (substep_projectiles w h projs players none).2.1, some s)
       | none => step_projectiles_go w h 1 (substep_projectiles w h projs players none).1
                    (substep_projectiles w h projs players none).2.1 none) := rfl
  rw [h2, hsub]
  cases sc
  · rfl
  · rfl

/-- Claim C3: shield consumption is exactly one-shot. In the canonical
two-player round with one projectile owned by p1 whose first advance lands
in bounds on a qualifying hit against the living defender p2: with the
shield up, the step only clears the shield, removes the projectile, leaves
the defender alive and records no scorer; with the shield down, the step
kills the defender, removes the projectile and records the projectile owner
as scorer. -/
theorem shield_is_one_shot (w h : ℤ) (a b : Player) (proj : Projectile)
    (hown : proj.owner = "p1") (halive : b.alive = true)
    (hx1 : 0 ≤ proj.x + proj.dx) (hx2 : proj.x + proj.dx < w)
    (hy1 : 0 ≤ proj.y + proj.dy) (hy2 : proj.y + proj.dy < h)
    (hhit : projectile_hits_player
      { proj with x := proj.x + proj.dx, y := proj.y + proj.dy } b = true) :
    (b.shield = true →
      step_projectiles w h [proj] [("p1", a), ("p2", b)] =
        ([], [("p1", a), ("p2", { b with shield := false })], none) ∧
      ({ b with shield := false }).alive = true) ∧
    (b.shield = false →
      step_projectiles w h [proj] [("p1", a), ("p2", b)] =
        ([], [("p1", a), ("p2", { b with alive := false })], some proj.owner)) := by
  obtain ⟨px, py, pdx, pdy, plvl, pown, psz⟩ := proj
  dsimp only at hown hhit hx1 hx2 hy1 hy2 ⊢
  subst hown
  constructor
  · intro hs
    refine ⟨?_, halive⟩
    have hstep : substep_projectiles w h [Projectile.mk px py pdx pdy plvl "p1" psz]
        [("p1", a), ("p2", b)] none =
        ([], [("p1", a), ("p2", { b with shield := false })], none) := by
      simp [substep_projectiles, resolve_hit, hx1, hx2, hy1, hy2, hhit, halive, hs]
    exact step_eval_single w h _ _ _ _ hstep
  · intro hs
    have hstep : substep_projectiles w h [Projectile.mk px py pdx pdy plvl "p1" psz]
        [("p1", a), ("p2", b)] none =
        ([], [("p1", a), ("p2", { b with alive := false })], some "p1") := by
      simp [substep_projectiles, resolve_hit, hx1, hx2, hy1, hy2, hhit, halive, hs]
    exact step_eval_single w h _ _ _ _ hstep

/-- A shielded, living p2 defender at (16, 5) on the normal level. -/
def shieldedDefender : Player :=
  { pid := "p2", name := "P2", x := 16, y := 5, shield := true }

/-- A p1 projectile at (15, 5) moving right on the normal level. -/
def witnessProjectile : Projectile :=
  { x := 15, y := 5, dx := 1, dy := 0, level := LEVEL_NORMAL, owner := "p1" }

/-- Witness for C3 at the concrete two-player round: the projectile advances
onto the shielded defender. -/
theorem shield_is_one_shot_witness :
    (shieldedDefender.shield = true →
      step_projectiles 30 10 [witnessProjectile]
          [("p1", samplePlayer), ("p2", shieldedDefender)] =
        ([], [("p1", samplePlayer), ("p2", { shieldedDefender with shield := false })],
         none) ∧
      ({ shieldedDefender with shield := false }).alive = true) ∧
    (shieldedDefender.shield = false →
      step_projectiles 30 10 [witnessProjectile]
          [("p1", samplePlayer), ("p2", shieldedDefender)] =
        ([], [("p1", samplePlayer), ("p2", { shieldedDefender with alive := false })],
         some witnessProjectile.owner)) :=
  shield_is_one_shot 30 10 samplePlayer shieldedDefender witnessProjectile
    rfl rfl (by decide) (by decide) (by decide) (by decide) (by decide)

end AsciiArena
